import Mathlib

/-
Verification of the value-representation layer of the goja runtime
(src/value.go) against its natural-language specification.

The embedding below translates the Go source into Lean:

* Go float64 values are modelled by the inductive type GoFloat: NaN, the two
  infinities, and finite dyadic values carrying an explicit sign bit, a
  magnitude and a binary scale (value = (-1)^sign * mag / 2^dexp).  This
  captures signed zero, IEEE equality, Signbit, and the bit pattern, which is
  everything src/value.go inspects on a float.
* Go machine integers are modelled as unbounded Int with explicit reductions
  modulo 2^32 / 2^64 where the source reinterprets them (uint32(i), uint64(i)).
* The Value interface becomes a closed inductive over the primitive kinds the
  claims concern (valueInt, valueInt64, valueFloat, valueBool, valueNull,
  valueUndefined).  String and Object kinds live in collaborator files outside
  src/ and are not reached by any claim, so their match arms (which in the
  source fall through to collaborator calls) are omitted together with their
  constructors; every omitted kind would take the default branch of the
  matches modelled here.
* Go panics and thrown runtime errors are modelled with Except.
-/

/-! ## Machine sizes (64-bit platform, as in src/value.go lines 123-134) -/

/-- unsafe.Sizeof(true) on a 64-bit platform. -/
def SizeBool : Nat := 1

/-- unsafe.Sizeof(float64(0)) on a 64-bit platform. -/
def SizeNumber : Nat := 8

/-- unsafe.Sizeof of a nil pointer on a 64-bit platform. -/
def SizeEmptyStruct : Nat := 8

/-- unsafe.Sizeof of a Go string header (pointer + length) on a 64-bit platform. -/
def SizeString : Nat := 16

/-! ## Floats -/

/-- Model of a Go float64: NaN, infinities (inf true is negative infinity), or
a finite dyadic value (-1)^sign * mag / 2^dexp.  The finite form represents
exactly the values src/value.go ever inspects on a float: equality, sign bit,
zero test and the IEEE bit pattern. -/
inductive GoFloat where
  | nan : GoFloat
  | inf (neg : Bool) : GoFloat
  | finite (sign : Bool) (mag : Nat) (dexp : Nat) : GoFloat
deriving DecidableEq, Repr

/-- math.IsNaN. -/
def GoFloat.isNaN : GoFloat → Bool
  | .nan => true
  | _ => false

/-- math.Signbit: true for negative values and for negative zero. -/
def GoFloat.signbit : GoFloat → Bool
  | .nan => false
  | .inf neg => neg
  | .finite sign _ _ => sign

/-- The Go comparison f == 0.0 (true for both zeros, false for NaN). -/
def GoFloat.isZero : GoFloat → Bool
  | .finite _ mag _ => decide (mag = 0)
  | _ => false

/-- IEEE equality, the Go == on float64: NaN equals nothing, +0.0 == -0.0,
finite values compare as the rationals mag1/2^d1 and mag2/2^d2 with sign. -/
def GoFloat.feq : GoFloat → GoFloat → Bool
  | .finite s1 m1 d1, .finite s2 m2 d2 =>
      decide (m1 * 2 ^ d2 = m2 * 2 ^ d1) && (decide (m1 = 0) || s1 == s2)
  | .inf n1, .inf n2 => n1 == n2
  | _, _ => false

/-- The Go conversion float64(n) from an integer.  Exact for every n with
|n| ≤ 2^53 (the only inputs this development evaluates it at); larger
magnitudes would round in Go, which theorems below guard with an explicit
hypothesis where they quantify over the integer. -/
def GoFloat.ofInt (n : Int) : GoFloat :=
  .finite (decide (n < 0)) n.natAbs 0

/-- Fuel-driven floor of log2 (agrees with Nat.log2 for every positive input;
written with structural recursion so that kernel evaluation works). -/
def log2Aux : Nat → Nat → Nat
  | 0, _ => 0
  | fuel + 1, n => if n < 2 then 0 else 1 + log2Aux fuel (n / 2)

/-- Floor of log2 of a positive natural number. -/
def log2floor (n : Nat) : Nat := log2Aux n n

/-- Models math.Float64bits (Go standard library, outside this repository) on
GoFloat: sign bit, 11-bit biased exponent, 52-bit fraction.  Exact on NaN (the
bit pattern Go's math.NaN() uses), infinities, zeros, and every exactly
representable finite value, which are the only inputs evaluated here. -/
def float64bits : GoFloat → Nat
  | .nan => 0x7FF8000000000001
  | .inf false => 0x7FF0000000000000
  | .inf true => 0xFFF0000000000000
  | .finite sign mag dexp =>
      let signBit : Nat := if sign then 2 ^ 63 else 0
      if mag = 0 then signBit
      else
        let L := log2floor mag
        let e : Int := (L : Int) - (dexp : Int)
        if 1024 ≤ e then signBit + 0x7FF0000000000000
        else if e < -1022 then signBit + mag * 2 ^ 1074 / 2 ^ dexp
        else
          let expField := (e + 1023).toNat
          let frac :=
            if L ≤ 52 then (mag - 2 ^ L) * 2 ^ (52 - L)
            else (mag - 2 ^ L) / 2 ^ (L - 52)
          signBit + expField * 2 ^ 52 + frac

/-! ## The Value kinds -/

/-- The primitive Value kinds of src/value.go reached by the claims:
valueInt (Go int, the Integer kind), valueInt64 (the BigInteger kind),
valueFloat, valueBool, valueNull, valueUndefined. -/
inductive Value where
  | int (i : Int)
  | int64 (i : Int)
  | float (f : GoFloat)
  | bool (b : Bool)
  | null
  | undefined
deriving DecidableEq, Repr

/-- Go interface equality on Value (the expression i == other in the source):
equal iff the dynamic types are identical and the dynamic values compare equal
with the Go == of that type — which on float64 is IEEE equality. -/
def goEq : Value → Value → Bool
  | .int a, .int b => decide (a = b)
  | .int64 a, .int64 b => decide (a = b)
  | .float a, .float b => a.feq b
  | .bool a, .bool b => a == b
  | .null, .null => true
  | .undefined, .undefined => true
  | _, _ => false

/-! ## valueInt (src/value.go lines 230-361) -/

/-- uint64(i): reinterpretation of a 64-bit signed integer. -/
def uInt64 (i : Int) : Nat := (i % (2 : Int) ^ 64).toNat

/-- uint32(i): reinterpretation of the low 32 bits. -/
def uInt32 (i : Int) : Nat := (i % (2 : Int) ^ 32).toNat

/-- valueInt.SameAs (line 311): return i == other, Go interface equality. -/
def valueIntSameAs (i : Int) (other : Value) : Bool :=
  goEq (.int i) other

/-- valueInt.Equals (lines 315-332) restricted to the embedded kinds; the
valueString and Object arms live in collaborator code outside src/ and are
never reached by a claim. -/
def valueIntEquals (i : Int) : Value → Bool
  | .int o => decide (i = o)
  | .int64 o => decide (i = o)
  | .float o => (GoFloat.ofInt i).feq o
  | .bool o => decide (i = if o then 1 else 0)
  | _ => false

/-- valueInt.StrictEquals (lines 334-345). -/
def valueIntStrictEquals (i : Int) : Value → Bool
  | .int o => decide (i = o)
  | .int64 o => decide (i = o)
  | .float o => (GoFloat.ofInt i).feq o
  | _ => false

/-- valueInt.hash (lines 359-361): return uint64(i). -/
def valueIntHash (i : Int) : Nat := uInt64 i

/-! ## valueFloat (src/value.go lines 857-1046) -/

/-- The package-level _negativeZero value (line 40). -/
def negativeZeroF : GoFloat := .finite true 0 0

/-- valueFloat.ToUInt32 (lines 894-904).  The finite arm is Go's float-to-
integer conversion: truncation toward zero, reinterpreted as uint32 (the
out-of-range finite case is implementation-defined in Go and is not relied on
by any theorem below). -/
def valueFloatToUInt32 : GoFloat → Nat
  | .nan => 0
  | .inf false => 2147483647
  | .inf true => 0
  | .finite sign mag dexp =>
      let t : Int := (mag / 2 ^ dexp : Nat)
      uInt32 (if sign then -t else t)

/-- valueFloat.SameAs (lines 966-997): NaN equals NaN; otherwise IEEE equality
refined at zero by the sign bit, an int/int64 argument being treated as a
non-negative zero. -/
def valueFloatSameAs (f : GoFloat) : Value → Bool
  | .float o =>
      if f.isNaN && o.isNaN then true
      else
        let ret := f.feq o
        if ret && f.isZero then f.signbit == o.signbit else ret
  | .int o =>
      let ret := f.feq (GoFloat.ofInt o)
      if ret && f.isZero then !f.signbit else ret
  | .int64 o =>
      let ret := f.feq (GoFloat.ofInt o)
      if ret && f.isZero then !f.signbit else ret
  | _ => false

/-- valueFloat.Equals (lines 999-1014) restricted to the embedded kinds (the
valueString and Object arms live outside src/); a bool argument compares
against its ToFloat, 1.0 or 0.0. -/
def valueFloatEquals (f : GoFloat) : Value → Bool
  | .float o => f.feq o
  | .int o => f.feq (GoFloat.ofInt o)
  | .int64 o => f.feq (GoFloat.ofInt o)
  | .bool o => f.feq (GoFloat.ofInt (if o then 1 else 0))
  | _ => false

/-- valueFloat.StrictEquals (lines 1016-1027). -/
def valueFloatStrictEquals (f : GoFloat) : Value → Bool
  | .float o => f.feq o
  | .int o => f.feq (GoFloat.ofInt o)
  | .int64 o => f.feq (GoFloat.ofInt o)
  | _ => false

/-- valueFloat.hash (lines 1041-1046): the comparison f == _negativeZero is Go
interface equality whose value part is IEEE ==, so it is true for BOTH zeros;
any zero hashes to 0, every other float hashes to its bit pattern. -/
def valueFloatHash (f : GoFloat) : Nat :=
  if f.feq negativeZeroF then 0 else float64bits f

/-! ## valueInt64 (BigInteger) -/

/-- Modelled from the spec: the valueInt64 methods are declared in this
repository outside src/ (src/value.go line 153 declares only the type).
Spec section 4.4 (b) requires Integer/BigInteger/Float that are numerically
identical to produce the same hash, so BigInteger(n) hashes like Integer(n):
uint64(n). -/
def valueInt64Hash (i : Int) : Nat := uInt64 i

/-- Modelled from the spec: valueInt64.SameAs is outside src/.  Spec section 3
makes Integer(n) and BigInteger(n) equal under every equality relation, and
spec section 4.3 treats an exact integer as a non-negative zero in cross-kind
SameValue against a Float. -/
def valueInt64SameAs (i : Int) : Value → Bool
  | .int o => decide (i = o)
  | .int64 o => decide (i = o)
  | .float o =>
      let ret := (GoFloat.ofInt i).feq o
      if ret && o.isZero then !o.signbit else ret
  | _ => false

/-- The SameValue relation: dynamic dispatch of the SameAs method on the
receiver's kind, exactly as the Go interface call a.SameAs(b).  The valueBool,
valueNull and valueUndefined receivers (lines 469-474, 599-602, 635-638)
accept only their own exact dynamic kind — in particular the Go type assertion
other.(valueNull) does not match a valueUndefined even though valueUndefined
embeds valueNull. -/
def Value.SameAs : Value → Value → Bool
  | .int i, other => valueIntSameAs i other
  | .int64 i, other => valueInt64SameAs i other
  | .float f, other => valueFloatSameAs f other
  | .bool b, other => match other with | .bool o => b == o | _ => false
  | .null, other => match other with | .null => true | _ => false
  | .undefined, other => match other with | .undefined => true | _ => false

/-! ## valueProperty (src/value.go lines 184-192 and 669-843) -/

/-- A Go panic (the fatal, unconditional abort of the contract-violation
paths); the field is the panic message. -/
structure Fatal where
  msg : String
deriving DecidableEq, Repr

/-- The valueProperty struct (lines 184-192).  The getter is modelled as the
bound call the source builds at line 717: a function from the receiver (the
This binding) to the call's result.  The setter's identity is irrelevant to
the slot's own state, so only its presence plus the arguments it would be
invoked with are observable (see ValueProperty.set). -/
structure ValueProperty where
  value : Option Value
  writable : Bool
  configurable : Bool
  enumerable : Bool
  accessor : Bool
  getterFunc : Option (Value → Value)
  setterFunc : Option (Value → Value → Value)

/-- valueProperty.isWritable (lines 705-707). -/
def ValueProperty.isWritable (p : ValueProperty) : Bool :=
  p.writable || p.setterFunc.isSome

/-- valueProperty.get (lines 709-721): with no getter, the stored value or
undefined; with a getter, the getter invoked with This bound to the
receiver. -/
def ValueProperty.get (p : ValueProperty) (this : Value) : Value :=
  match p.getterFunc with
  | none =>
      match p.value with
      | some v => v
      | none => .undefined
  | some call => call this

/-- The observable effect of invoking a setter: the receiver passed as This
and the single argument. -/
structure SetterInvocation where
  receiver : Value
  arg : Value
deriving Repr

/-- valueProperty.set (lines 723-734): with no setter the stored value is
overwritten unconditionally (no writable check); with a setter the slot is
untouched and the setter is invoked with the receiver and the new value
(returned here as the observable invocation record). -/
def ValueProperty.set (p : ValueProperty) (this v : Value) :
    ValueProperty × Option SetterInvocation :=
  match p.setterFunc with
  | none => ({ p with value := some v }, none)
  | some _ => (p, some ⟨this, v⟩)

/-- valueProperty.ToBoolean (lines 693-695): the inert default false. -/
def ValueProperty.ToBoolean (_ : ValueProperty) : Bool := false

/-- valueProperty.toString (lines 673-675): the inert default stringEmpty. -/
def ValueProperty.toString (_ : ValueProperty) : String := ""

/-- valueProperty.hash (lines 764-766): an unconditional Go panic. -/
def ValueProperty.hash (_ : ValueProperty) : Except Fatal Nat :=
  .error ⟨"valueProperty should never be used in maps or sets"⟩

/-- valueProperty.Export (lines 756-758): an unconditional Go panic. -/
def ValueProperty.Export (_ : ValueProperty) : Except Fatal Unit :=
  .error ⟨"Cannot export valueProperty"⟩

/-! ## valueUnresolved (src/value.go lines 175-178 and 1390-1524) -/

/-- The reference-error condition thrown by Runtime.throwReferenceError,
carrying the unresolved name. -/
inductive RefError where
  | notDefined (name : String)
deriving DecidableEq, Repr

/-- The valueUnresolved struct (lines 175-178): the unresolved reference name
(the Runtime pointer is only used to throw). -/
structure ValueUnresolved where
  ref : String
deriving DecidableEq, Repr

/-- valueUnresolved.throw (lines 1390-1392): the reference error raised,
carrying the unresolved name. -/
def ValueUnresolved.refErr (o : ValueUnresolved) : RefError :=
  .notDefined o.ref

/-- valueUnresolved.ToInteger (lines 1394-1397): throws. -/
def ValueUnresolved.ToInteger (o : ValueUnresolved) : Except RefError Int :=
  .error o.refErr

/-- valueUnresolved.ToInt (lines 1484-1487): throws. -/
def ValueUnresolved.ToInt (o : ValueUnresolved) : Except RefError Int :=
  .error o.refErr

/-- valueUnresolved.ToInt32 (lines 1488-1491): throws. -/
def ValueUnresolved.ToInt32 (o : ValueUnresolved) : Except RefError Int :=
  .error o.refErr

/-- valueUnresolved.ToUInt32 (lines 1492-1495): throws. -/
def ValueUnresolved.ToUInt32 (o : ValueUnresolved) : Except RefError Nat :=
  .error o.refErr

/-- valueUnresolved.ToInt64 (lines 1496-1499): throws. -/
def ValueUnresolved.ToInt64 (o : ValueUnresolved) : Except RefError Int :=
  .error o.refErr

/-- valueUnresolved.ToFloat (lines 1425-1428): throws. -/
def ValueUnresolved.ToFloat (o : ValueUnresolved) : Except RefError GoFloat :=
  .error o.refErr

/-- valueUnresolved.ToNumber (lines 1440-1443): throws. -/
def ValueUnresolved.ToNumber (o : ValueUnresolved) : Except RefError Value :=
  .error o.refErr

/-- valueUnresolved.ToBoolean (lines 1430-1433): throws. -/
def ValueUnresolved.ToBoolean (o : ValueUnresolved) : Except RefError Bool :=
  .error o.refErr

/-- valueUnresolved.toString (lines 1405-1408): throws. -/
def ValueUnresolved.toString (o : ValueUnresolved) : Except RefError String :=
  .error o.refErr

/-- valueUnresolved.SameAs (lines 1445-1448): throws. -/
def ValueUnresolved.SameAs (o : ValueUnresolved) (_ : Value) : Except RefError Bool :=
  .error o.refErr

/-- valueUnresolved.Equals (lines 1450-1453): throws. -/
def ValueUnresolved.Equals (o : ValueUnresolved) (_ : Value) : Except RefError Bool :=
  .error o.refErr

/-- valueUnresolved.StrictEquals (lines 1455-1458): throws. -/
def ValueUnresolved.StrictEquals (o : ValueUnresolved) (_ : Value) : Except RefError Bool :=
  .error o.refErr

/-- valueUnresolved.hash (lines 1475-1478): throws. -/
def ValueUnresolved.hash (o : ValueUnresolved) : Except RefError Nat :=
  .error o.refErr

/-- valueUnresolved.Export (lines 1465-1468): throws. -/
def ValueUnresolved.Export (o : ValueUnresolved) : Except RefError Unit :=
  .error o.refErr

/-- valueUnresolved.MemUsage (lines 1480-1482): does NOT throw; returns the
byte length of the unresolved name as the current usage, and that length plus
a string header as the projected usage (the name is ASCII in every evaluation
below, so String.length coincides with the Go byte length). -/
def ValueUnresolved.MemUsage (o : ValueUnresolved) : Except RefError (Nat × Nat) :=
  .ok (o.ref.length, o.ref.length + SizeString)

/-! ## Helper lemmas -/

theorem bool_beq_comm (x y : Bool) : (x == y) = (y == x) := by
  cases x <;> cases y <;> rfl

theorem mag_zero_of_cross (m1 d1 m2 d2 : Nat)
    (hm : m1 * 2 ^ d2 = m2 * 2 ^ d1) (h0 : m1 = 0) : m2 = 0 := by
  subst h0
  rw [Nat.zero_mul] at hm
  rcases Nat.mul_eq_zero.mp hm.symm with h | h
  · exact h
  · exact absurd h (Nat.pos_iff_ne_zero.mp (pow_pos (by norm_num) d1))

theorem GoFloat.feq_comm (a b : GoFloat) : a.feq b = b.feq a := by
  cases a <;> cases b
  case inf.inf n1 n2 => cases n1 <;> cases n2 <;> rfl
  case finite.finite s1 m1 d1 s2 m2 d2 =>
    simp only [GoFloat.feq]
    rw [Bool.eq_iff_iff]
    simp only [Bool.and_eq_true, Bool.or_eq_true, decide_eq_true_eq, beq_iff_eq]
    constructor
    · rintro ⟨hm, hz⟩
      exact ⟨hm.symm, hz.elim
        (fun h0 => Or.inl (mag_zero_of_cross m1 d1 m2 d2 hm h0))
        (fun hs => Or.inr hs.symm)⟩
    · rintro ⟨hm, hz⟩
      exact ⟨hm.symm, hz.elim
        (fun h0 => Or.inl (mag_zero_of_cross m2 d2 m1 d1 hm h0))
        (fun hs => Or.inr hs.symm)⟩
  all_goals rfl

theorem isZero_eq_of_feq : ∀ a b : GoFloat, a.feq b = true → a.isZero = b.isZero
  | .nan, .nan, h => nomatch h
  | .nan, .inf _, h => nomatch h
  | .nan, .finite _ _ _, h => nomatch h
  | .inf _, .nan, h => nomatch h
  | .inf _, .inf _, _ => rfl
  | .inf _, .finite _ _ _, h => nomatch h
  | .finite _ _ _, .nan, h => nomatch h
  | .finite _ _ _, .inf _, h => nomatch h
  | .finite s1 m1 d1, .finite s2 m2 d2, h => by
      simp only [GoFloat.feq, Bool.and_eq_true, Bool.or_eq_true, decide_eq_true_eq,
        beq_iff_eq] at h
      simp only [GoFloat.isZero]
      exact decide_eq_decide.mpr
        ⟨fun h0 => mag_zero_of_cross m1 d1 m2 d2 h.1 h0,
         fun h0 => mag_zero_of_cross m2 d2 m1 d1 h.1.symm h0⟩

theorem valueFloatSameAs_float_comm (f g : GoFloat) :
    valueFloatSameAs f (.float g) = valueFloatSameAs g (.float f) := by
  simp only [valueFloatSameAs]
  rw [Bool.and_comm f.isNaN g.isNaN, GoFloat.feq_comm f g]
  by_cases hr : g.feq f = true
  · rw [isZero_eq_of_feq g f hr, bool_beq_comm g.signbit f.signbit]
  · rw [Bool.not_eq_true] at hr
    rw [hr]
    simp

theorem valueIntSameAs_int_comm (a b : Int) :
    Value.SameAs (.int a) (.int b) = Value.SameAs (.int b) (.int a) := by
  simp only [Value.SameAs, valueIntSameAs, goEq]
  exact decide_eq_decide.mpr ⟨Eq.symm, Eq.symm⟩

/-! ## Claims -/

/-- C1 (counterexample): the claim says numerically identical Integer and
Float values hash identically, in particular hash(Integer(5)) =
hash(Float(5.0)).  In the source, Integer(5) and Float(5.0) are StrictEquals
yet valueInt.hash returns 5 while valueFloat.hash returns the IEEE bit
pattern of 5.0 (4617315517961601024), so the claim is false at (Integer 5,
Float 5.0). -/
theorem C1_counterexample :
    valueIntStrictEquals 5 (.float (.finite false 5 0)) = true ∧
    valueIntHash 5 ≠ valueFloatHash (.finite false 5 0) := by
  decide

/-- C1 (amended): Integer(n) and BigInteger(n) hash identically for every n;
a Float zero of either sign hashes to 0, the same bucket as Integer(0); but a
nonzero Float hashes to its IEEE bit pattern, so numerically identical
Integer/Float pairs in general hash differently, e.g. hash(Integer(5)) = 5
while hash(Float(5.0)) = 4617315517961601024. -/
theorem C1_amended :
    (∀ n : Int, valueIntHash n = valueInt64Hash n) ∧
    valueFloatHash (.finite false 0 0) = valueIntHash 0 ∧
    valueFloatHash (.finite true 0 0) = valueIntHash 0 ∧
    valueIntHash 5 ≠ valueFloatHash (.finite false 5 0) :=
  ⟨fun _ => rfl, by decide, by decide, by decide⟩

/-- C2 (counterexample): the claim says Integer(n) and BigInteger(n) are equal
under EVERY equality relation; but valueInt.SameAs is Go interface equality,
which requires the identical dynamic kind, so SameValue(Integer(5),
BigInteger(5)) is false. -/
theorem C2_counterexample : Value.SameAs (.int 5) (.int64 5) = false := by
  decide

/-- C2 (amended): Integer(n) and BigInteger(n) are equal under AbstractEquals
and StrictEquals and produce the same hash, but they are NOT SameValue with an
Integer receiver: valueInt.SameAs compares by Go interface equality, which
never matches the BigInteger kind. -/
theorem C2_amended (n : Int) :
    valueIntEquals n (.int64 n) = true ∧
    valueIntStrictEquals n (.int64 n) = true ∧
    valueIntHash n = valueInt64Hash n ∧
    Value.SameAs (.int n) (.int64 n) = false := by
  refine ⟨?_, ?_, rfl, rfl⟩ <;> simp [valueIntEquals, valueIntStrictEquals]

/-- C3 (counterexample): the claim says SameValue(Integer(0), Float(+0.0)) is
true; in the source valueInt.SameAs is Go interface equality, which never
matches a Float, so it is false. -/
theorem C3_counterexample :
    Value.SameAs (.int 0) (.float (.finite false 0 0)) = false := by
  decide

/-- C3 (amended): cross-kind Integer/Float SameValue is one-sided.  With a
Float receiver, SameValue(Float(f), Integer(n)) is true iff f equals float64(n)
and, when f is a zero, f is +0.0 (the Integer is treated as a non-negative
zero).  With an Integer receiver, SameValue(Integer(n), Float(f)) is always
false.  The bound on n keeps the embedded float64(n) conversion exact. -/
theorem C3_amended (n : Int) (f : GoFloat) (h : n.natAbs ≤ 2 ^ 53) :
    (Value.SameAs (.float f) (.int n) =
      (f.feq (GoFloat.ofInt n) && (!f.isZero || !f.signbit))) ∧
    Value.SameAs (.int n) (.float f) = false := by
  constructor
  · simp only [Value.SameAs, valueFloatSameAs]
    cases hr : f.feq (GoFloat.ofInt n) <;> cases hz : f.isZero <;> simp [hr, hz]
  · rfl

/-- C3 (witness): the amended theorem applied at n = 7 and f = 7.0. -/
theorem C3_witness :
    Value.SameAs (.float (.finite false 7 0)) (.int 7) = true :=
  ((C3_amended 7 (.finite false 7 0) (by decide)).1).trans (by decide)

/-- C4 (counterexample): the claim says every operation on an
UnresolvedReference raises a reference error and never returns data; but
valueUnresolved.MemUsage (memory accounting, named by the claim) returns size
estimates without raising: on the unresolved name "x" it returns (1, 17). -/
theorem C4_counterexample :
    ValueUnresolved.MemUsage ⟨"x"⟩ = Except.ok (1, 17) := rfl

/-- C4 (amended): every operation on an UnresolvedReference EXCEPT MemUsage
raises the reference-error condition carrying the unresolved name and returns
no data; MemUsage alone returns a size estimate derived from the name's length
without raising. -/
theorem C4_amended (r : String) :
    ValueUnresolved.ToInteger ⟨r⟩ = .error (.notDefined r) ∧
    ValueUnresolved.ToInt ⟨r⟩ = .error (.notDefined r) ∧
    ValueUnresolved.ToInt32 ⟨r⟩ = .error (.notDefined r) ∧
    ValueUnresolved.ToUInt32 ⟨r⟩ = .error (.notDefined r) ∧
    ValueUnresolved.ToInt64 ⟨r⟩ = .error (.notDefined r) ∧
    ValueUnresolved.ToFloat ⟨r⟩ = .error (.notDefined r) ∧
    ValueUnresolved.ToNumber ⟨r⟩ = .error (.notDefined r) ∧
    ValueUnresolved.ToBoolean ⟨r⟩ = .error (.notDefined r) ∧
    ValueUnresolved.toString ⟨r⟩ = .error (.notDefined r) ∧
    (∀ v, ValueUnresolved.SameAs ⟨r⟩ v = .error (.notDefined r)) ∧
    (∀ v, ValueUnresolved.Equals ⟨r⟩ v = .error (.notDefined r)) ∧
    (∀ v, ValueUnresolved.StrictEquals ⟨r⟩ v = .error (.notDefined r)) ∧
    ValueUnresolved.hash ⟨r⟩ = .error (.notDefined r) ∧
    ValueUnresolved.Export ⟨r⟩ = .error (.notDefined r) ∧
    ValueUnresolved.MemUsage ⟨r⟩ = .ok (r.length, r.length + SizeString) :=
  ⟨rfl, rfl, rfl, rfl, rfl, rfl, rfl, rfl, rfl,
   fun _ => rfl, fun _ => rfl, fun _ => rfl, rfl, rfl, rfl⟩

/-- C5 (counterexample): the claim says ToUInt32(+Infinity) is the maximum
uint32 value (4294967295); the source returns uint32(math.MaxInt32) =
2147483647 instead. -/
theorem C5_counterexample : valueFloatToUInt32 (.inf false) ≠ 4294967295 := by
  decide

/-- C5 (amended): valueFloat.ToUInt32 maps NaN to 0, +Infinity to the maximum
int32 value 2147483647 (not the maximum uint32), and -Infinity to 0. -/
theorem C5_amended :
    valueFloatToUInt32 .nan = 0 ∧
    valueFloatToUInt32 (.inf false) = 2147483647 ∧
    valueFloatToUInt32 (.inf true) = 0 := by
  decide

/-- C6: valueProperty.get — with a getter present, get(receiver) invokes the
getter bound to the receiver and returns its result; in accessor mode with no
getter it returns Undefined; not in accessor mode it returns the stored value,
or Undefined when none is set.  The two hypotheses are the data-model
invariants of a property slot (an accessor slot stores no plain value, a data
slot has no getter), under which the code's getter-first test coincides with
the claim's accessor-mode phrasing. -/
theorem C6_theorem (p : ValueProperty) (r : Value)
    (hacc : p.accessor = true → p.value = none)
    (hdata : p.accessor = false → p.getterFunc = none) :
    (∀ g, p.getterFunc = some g → p.get r = g r) ∧
    (p.accessor = true → p.getterFunc = none → p.get r = Value.undefined) ∧
    (p.accessor = false → p.get r = p.value.getD Value.undefined) := by
  refine ⟨?_, ?_, ?_⟩
  · intro g hg
    simp [ValueProperty.get, hg]
  · intro ha hg
    simp [ValueProperty.get, hg, hacc ha]
  · intro ha
    cases hv : p.value <;> simp [ValueProperty.get, hdata ha, hv]

/-- A concrete getter for the C6 witness: always returns Integer 42. -/
def witnessGetter : Value → Value := fun _ => .int 42

/-- A concrete accessor property slot for the C6 witness. -/
def witnessAccessorProp : ValueProperty :=
  { value := none, writable := false, configurable := false, enumerable := false,
    accessor := true, getterFunc := some witnessGetter, setterFunc := none }

/-- C6 (witness): on an accessor slot whose getter always returns Integer 42,
get returns Integer 42. -/
theorem C6_witness : witnessAccessorProp.get .null = .int 42 :=
  ((C6_theorem witnessAccessorProp .null (fun _ => rfl)
      (fun hf => Bool.noConfusion hf)).1 witnessGetter rfl).trans rfl

/-- C7: on every property slot, when no setter is present valueProperty.set
overwrites the stored value unconditionally — the writable flag is never
consulted — and (for every slot, setter present or not) isWritable returns
writable OR setter-present. -/
theorem C7_theorem (p : ValueProperty) (receiver v : Value) :
    (p.setterFunc = none → (p.set receiver v).1.value = some v) ∧
    p.isWritable = (p.writable || p.setterFunc.isSome) :=
  ⟨fun h => by simp [ValueProperty.set, h], rfl⟩

/-- A concrete non-writable data property slot for the C7 witness. -/
def witnessDataProp : ValueProperty :=
  { value := some (.int 1), writable := false, configurable := false,
    enumerable := false, accessor := false, getterFunc := none,
    setterFunc := none }

/-- C7 (witness): set overwrites the stored value of a slot whose writable
flag is false. -/
theorem C7_witness :
    (witnessDataProp.set .null (.int 2)).1.value = some (.int 2) :=
  (C7_theorem witnessDataProp .null (.int 2)).1 rfl

/-- C8: on every property slot the incidentally reachable scalar coercions
return inert defaults — ToBoolean gives false and the string coercion gives
the empty string — while hash and Export abort unconditionally with a Go
panic instead of returning a value. -/
theorem C8_theorem (p : ValueProperty) :
    p.ToBoolean = false ∧
    p.toString = "" ∧
    p.hash = Except.error ⟨"valueProperty should never be used in maps or sets"⟩ ∧
    p.Export = Except.error ⟨"Cannot export valueProperty"⟩ :=
  ⟨rfl, rfl, rfl, rfl⟩

/-- C9: on Float values, SameValue(NaN, NaN) is true, SameValue(+0.0, -0.0)
is false, and AbstractEquals(+0.0, -0.0) is true. -/
theorem C9_theorem :
    Value.SameAs (.float .nan) (.float .nan) = true ∧
    Value.SameAs (.float (.finite false 0 0)) (.float (.finite true 0 0)) = false ∧
    valueFloatEquals (.finite false 0 0) (.float (.finite true 0 0)) = true := by
  decide

/-- C10 (counterexample): the claim says SameAs is symmetric on the numeric
kinds; but Float(+0.0).SameAs(Integer(0)) is true while
Integer(0).SameAs(Float(+0.0)) is false, so symmetry fails. -/
theorem C10_counterexample :
    ¬ (Value.SameAs (.int 0) (.float (.finite false 0 0)) =
        Value.SameAs (.float (.finite false 0 0)) (.int 0)) := by
  decide

/-- C10 (amended): SameAs is symmetric within the Integer kind and within the
Float kind, but not across them: an Integer receiver rejects every Float
(Go interface equality), while a Float receiver accepts a numerically equal
Integer — e.g. Float(+0.0).SameAs(Integer(0)) is true. -/
theorem C10_amended :
    (∀ a b : Int, Value.SameAs (.int a) (.int b) = Value.SameAs (.int b) (.int a)) ∧
    (∀ f g : GoFloat,
      Value.SameAs (.float f) (.float g) = Value.SameAs (.float g) (.float f)) ∧
    (∀ (n : Int) (f : GoFloat), Value.SameAs (.int n) (.float f) = false) ∧
    Value.SameAs (.float (.finite false 0 0)) (.int 0) = true := by
  refine ⟨valueIntSameAs_int_comm, ?_, fun n f => rfl, by decide⟩
  intro f g
  simpa only [Value.SameAs] using valueFloatSameAs_float_comm f g
